import Mathlib

/-!
Shallow embedding of the credential-authentication core of the repository:
the validators (src/utils/validators.js), the error taxonomy
(src/utils/errors.js), the user model with its lockout methods
(src/models/User.model.js), the authentication service
(src/services/auth.service.js) and the fixed-window rate limiter
(src/middleware/rateLimiter.js).  JavaScript timestamps (Date.now(),
milliseconds) are modelled as Nat; the bcrypt hash comparison is modelled
as string equality between the submitted password and the stored one; the
jsonwebtoken library is modelled by an explicit token record with a
checkable signature field.
-/

deriving instance DecidableEq for Except

namespace Auth

/-- Error taxonomy of src/utils/errors.js plus the raw JavaScript error
shapes the service catch blocks inspect.  appValidation models the
application ValidationError(message, errors) with statusCode 400; appAuth
models AuthenticationError (401); rateLimit models RateLimitError (429);
mongooseValidation models a mongoose-level error whose name field is
ValidationError but which is not an instance of the application class;
duplicateKey models a MongoDB E11000 error (code 11000) whose keyPattern
names one field; other models any unexpected thrown error. -/
inductive JsError where
  | appValidation (message : String) (errors : List String)
  | appAuth (message : String)
  | rateLimit (message : String)
  | mongooseValidation (messages : List String)
  | duplicateKey (field : String)
  | other (message : String)
deriving Repr, DecidableEq

/-- statusCode carried by the AppError hierarchy; raw JavaScript errors
(the last three shapes) carry none. -/
def JsError.statusCode : JsError → Option Nat
  | .appValidation _ _ => some 400
  | .appAuth _ => some 401
  | .rateLimit _ => some 429
  | .mongooseValidation _ => none
  | .duplicateKey _ => none
  | .other _ => none

/-- Whether an error is an application AuthenticationError. -/
def JsError.isAuthErr : JsError → Bool
  | .appAuth _ => true
  | _ => false

/-- The first list is a prefix of the second, by character equality. -/
def prefixMatches : List Char → List Char → Bool
  | [], _ => true
  | _ :: _, [] => false
  | x :: xs, y :: ys => x == y && prefixMatches xs ys

/-- The needle occurs as a contiguous run somewhere in the haystack. -/
def occursIn (needle : List Char) : List Char → Bool
  | [] => prefixMatches needle []
  | y :: ys => prefixMatches needle (y :: ys) || occursIn needle ys

/-- Substring test: needle occurs in hay (used to state which field an
error message names). -/
def strContains (hay needle : String) : Bool :=
  occursIn needle.toList hay.toList

/-- Whether any user-visible text of an error mentions the given needle. -/
def errorNamesField (e : JsError) (needle : String) : Bool :=
  match e with
  | .appValidation m es => strContains m needle || es.any (fun x => strContains x needle)
  | .appAuth m => strContains m needle
  | .rateLimit m => strContains m needle
  | .mongooseValidation es => es.any (fun x => strContains x needle)
  | .duplicateKey f => strContains f needle
  | .other m => strContains m needle

/-! ## Validators (src/utils/validators.js) -/

/-- Characters accepted by the username pattern of validateUsername. -/
def isUsernameChar (c : Char) : Bool :=
  (Char.ofNat 97 ≤ c && c ≤ Char.ofNat 122) ||
  (Char.ofNat 65 ≤ c && c ≤ Char.ofNat 90) ||
  (Char.ofNat 48 ≤ c && c ≤ Char.ofNat 57) ||
  c == Char.ofNat 95 || c == Char.ofNat 45

/-- validateUsername: required, string, 3 to 50 characters, restricted
character set, checked in the source else-if order. -/
def validateUsername (username : String) : List String :=
  if username = "" then ["Username is required"]
  else if username.length < 3 then ["Username must be at least 3 characters long"]
  else if 50 < username.length then ["Username must not exceed 50 characters"]
  else if !(username.toList.all isUsernameChar) then
    ["Username can only contain letters, numbers, hyphens, and underscores"]
  else []

/-- Password has a character matching the regex class A-Z. -/
def hasUpperCase (p : String) : Bool :=
  p.toList.any (fun c => Char.ofNat 65 ≤ c && c ≤ Char.ofNat 90)

/-- Password has a character matching the regex class a-z. -/
def hasLowerCase (p : String) : Bool :=
  p.toList.any (fun c => Char.ofNat 97 ≤ c && c ≤ Char.ofNat 122)

/-- Password has a character matching the digit class. -/
def hasNumbers (p : String) : Bool :=
  p.toList.any (fun c => Char.ofNat 48 ≤ c && c ≤ Char.ofNat 57)

/-- The literal special-character class of validatePassword. -/
def specialChars : List Char := "!@#$%^&*(),.?\":\x7b\x7d|<>".toList

/-- Password has a character of the special-character class. -/
def hasSpecialChar (p : String) : Bool :=
  p.toList.any (fun c => specialChars.contains c)

def msgPwRequired : String := "Password is required"
def msgPwMin : String := "Password must be at least 8 characters long"
def msgPwMax : String := "Password must not exceed 128 characters"
def msgPwUpper : String := "Password must contain at least one uppercase letter"
def msgPwLower : String := "Password must contain at least one lowercase letter"
def msgPwNumber : String := "Password must contain at least one number"
def msgPwSpecial : String := "Password must contain at least one special character"

/-- validatePassword: length gate in else-if order, then the four class
checks, each pushing its own message independently. -/
def validatePassword (password : String) : List String :=
  if password = "" then [msgPwRequired]
  else if password.length < 8 then [msgPwMin]
  else if 128 < password.length then [msgPwMax]
  else
    (if hasUpperCase password then [] else [msgPwUpper]) ++
    (if hasLowerCase password then [] else [msgPwLower]) ++
    (if hasNumbers password then [] else [msgPwNumber]) ++
    (if hasSpecialChar password then [] else [msgPwSpecial])

/-- The domain part contains a dot that is neither first nor last. -/
def hasInteriorDot (d : List Char) : Bool :=
  (List.range d.length).any
    (fun i => d.getD i (Char.ofNat 32) == Char.ofNat 46 && 0 < i && i + 1 < d.length)

/-- Split a character list at every occurrence of the given character. -/
def splitAtChar (c : Char) : List Char → List (List Char)
  | [] => [[]]
  | x :: xs =>
    match splitAtChar c xs with
    | [] => [[]]
    | h :: t => if x == c then [] :: h :: t else (x :: h) :: t

/-- Model of the anchored email regex of validateEmail: exactly one at
sign, a nonempty whitespace-free local part, and a nonempty
whitespace-free domain with an interior dot. -/
def emailRegexTest (s : String) : Bool :=
  match splitAtChar (Char.ofNat 64) s.toList with
  | [lp, dom] =>
    !lp.isEmpty && lp.all (fun c => !c.isWhitespace) &&
    !dom.isEmpty && dom.all (fun c => !c.isWhitespace) && hasInteriorDot dom
  | _ => false

/-- validateEmail in source else-if order. -/
def validateEmail (email : String) : List String :=
  if email = "" then ["Email is required"]
  else if !(emailRegexTest email) then ["Invalid email format"]
  else if 255 < email.length then ["Email must not exceed 255 characters"]
  else []

/-- Model of String.prototype.trim combined with the null-byte strip of
sanitizeString: drop null bytes, then strip whitespace from both ends. -/
def trimChars (l : List Char) : List Char :=
  ((l.dropWhile Char.isWhitespace).reverse.dropWhile Char.isWhitespace).reverse

/-- sanitizeString: remove null bytes and trim. -/
def sanitizeString (s : String) : String :=
  String.mk (trimChars (s.toList.filter (fun c => c != Char.ofNat 0)))

/-- validateLoginCredentials: sanitize both inputs, validate the username
in full and the password only for presence, throw a single
ValidationError carrying every message, otherwise return the sanitized
pair. -/
def validateLoginCredentials (username password : String) :
    Except JsError (String × String) :=
  let su := sanitizeString username
  let sp := sanitizeString password
  let errors := validateUsername su ++ (if sp = "" then [msgPwRequired] else [])
  if errors = [] then .ok (su, sp)
  else .error (.appValidation "Validation failed" errors)

/-- validateRegistrationData: sanitize all fields (an absent or empty
email stays absent), validate username, password (full strength rules)
and, when present and nonempty, email; throw one ValidationError with all
messages, otherwise return the sanitized triple. -/
def validateRegistrationData (username password : String) (email : Option String) :
    Except JsError (String × String × Option String) :=
  let su := sanitizeString username
  let sp := sanitizeString password
  let se : Option String := match email with
    | none => none
    | some e => if e = "" then none else some (sanitizeString e)
  let errors := validateUsername su ++ validatePassword sp ++
    (match se with
     | some em => if em = "" then [] else validateEmail em
     | none => [])
  if errors = [] then .ok (su, sp, se)
  else .error (.appValidation "Validation failed" errors)

/-! ## User model (src/models/User.model.js) -/

/-- Security section of env.config. -/
structure SecurityConfig where
  maxLoginAttempts : Nat
  lockoutDuration : Nat
deriving Repr, DecidableEq

/-- A persisted user record.  The password field models the stored bcrypt
hash; comparePassword is modelled as equality with the submitted
password. -/
structure UserRec where
  uid : String
  username : String
  email : Option String
  password : String
  failedLoginAttempts : Nat
  lockUntil : Option Nat
  lastLogin : Option Nat
  isActive : Bool
deriving Repr, DecidableEq

/-- Virtual isLocked: lockUntil present and strictly in the future. -/
def UserRec.isLocked (u : UserRec) (now : Nat) : Bool :=
  match u.lockUntil with
  | some t => decide (now < t)
  | none => false

/-- comparePassword: the stored hash matches the candidate. -/
def comparePassword (u : UserRec) (candidate : String) : Bool :=
  candidate == u.password

/-- The unconditional part of incrementLoginAttempts: add one to the
counter and set lockUntil when the new count reaches the configured
maximum. -/
def incrementBase (cfg : SecurityConfig) (now : Nat) (u : UserRec) : UserRec :=
  if cfg.maxLoginAttempts ≤ u.failedLoginAttempts + 1 then
    { u with failedLoginAttempts := u.failedLoginAttempts + 1,
             lockUntil := some (now + cfg.lockoutDuration) }
  else
    { u with failedLoginAttempts := u.failedLoginAttempts + 1 }

/-- incrementLoginAttempts: when a lock exists and has expired
(lockUntil strictly before now) restart the counter at one and clear the
lock, otherwise increment and possibly lock. -/
def incrementLoginAttempts (cfg : SecurityConfig) (now : Nat) (u : UserRec) : UserRec :=
  match u.lockUntil with
  | some t =>
    if t < now then { u with failedLoginAttempts := 1, lockUntil := none }
    else incrementBase cfg now u
  | none => incrementBase cfg now u

/-- resetLoginAttempts: zero the counter, stamp lastLogin, clear the
lock. -/
def resetLoginAttempts (now : Nat) (u : UserRec) : UserRec :=
  { u with failedLoginAttempts := 0, lastLogin := some now, lockUntil := none }

/-- findByUsername over the modelled collection (first match, as
findOne). -/
def findByUsername (db : List UserRec) (username : String) : Option UserRec :=
  db.find? (fun r => r.username == username)

/-- The register findOne with an or-clause on username and, when the
sanitized email is truthy, on email. -/
def findOneByUsernameOrEmail (db : List UserRec) (username : String)
    (email : Option String) : Option UserRec :=
  db.find? (fun r =>
    r.username == username ||
    (match email with
     | some em => r.email == some em
     | none => false))

/-- Apply an update to the record with the given id (the updateOne calls
of the user model). -/
def updateUser (db : List UserRec) (uid : String) (f : UserRec → UserRec) :
    List UserRec :=
  db.map (fun r => if r.uid == uid then f r else r)

/-! ## Token engine (jsonwebtoken usage in auth.service.js) -/

/-- JWT section of env.config. -/
structure JwtConfig where
  secret : String
  expiresInMs : Nat
  issuer : String
deriving Repr, DecidableEq

/-- Claims placed in the payload by generateToken. -/
structure TokenClaims where
  sub : String
  username : String
  iat : Nat
deriving Repr, DecidableEq

/-- A wire token: payload claims, expiry, issuer stamp and a signature
value; wellFormed is false for undecodable tokens. -/
structure JwtToken where
  wellFormed : Bool
  claims : TokenClaims
  exp : Nat
  issuer : String
  sig : Nat
deriving Repr, DecidableEq

/-- Model signature function binding the secret to the signed fields. -/
def jwtSig (secret : String) (c : TokenClaims) (exp : Nat) (issuer : String) : Nat :=
  (secret.length + 1) * (c.sub.length + c.username.length + c.iat + exp + issuer.length + 7)

/-- The internal failure kinds of jwt.verify. -/
inductive JwtError where
  | malformed
  | badSignature
  | expired
  | badIssuer
deriving Repr, DecidableEq

/-- Model of jwt.verify with the issuer option: decode, check signature,
expiry and issuer, each failing with its own kind. -/
def jwtVerify (cfg : JwtConfig) (now : Nat) (t : JwtToken) :
    Except JwtError TokenClaims :=
  if t.wellFormed = false then .error .malformed
  else if t.sig ≠ jwtSig cfg.secret t.claims t.exp t.issuer then .error .badSignature
  else if t.exp ≤ now then .error .expired
  else if t.issuer ≠ cfg.issuer then .error .badIssuer
  else .ok t.claims

/-- generateToken of auth.service.js. -/
def generateToken (jcfg : JwtConfig) (now : Nat) (u : UserRec) : JwtToken :=
  let c : TokenClaims := { sub := u.uid, username := u.username, iat := now }
  { wellFormed := true
    claims := c
    exp := now + jcfg.expiresInMs
    issuer := jcfg.issuer
    sig := jwtSig jcfg.secret c (now + jcfg.expiresInMs) jcfg.issuer }

/-- verifyToken of auth.service.js: any jwt.verify failure is caught and
replaced by one AuthenticationError. -/
def verifyToken (jcfg : JwtConfig) (now : Nat) (t : JwtToken) :
    Except JsError TokenClaims :=
  match jwtVerify jcfg now t with
  | .ok c => .ok c
  | .error _ => .error (.appAuth "Invalid or expired token")

/-! ## Authentication service (src/services/auth.service.js) -/

/-- Remaining lock time in minutes, Math.ceil over milliseconds. -/
def lockTimeRemaining (lockUntil now : Nat) : Nat :=
  (lockUntil - now + 59999) / 60000

/-- The locked-account error message built in login. -/
def lockMessage (lockUntil now : Nat) : String :=
  "Account is locked. Please try again in " ++
    toString (lockTimeRemaining lockUntil now) ++ " minutes"

/-- Observable credential-store operations, recorded in order. -/
inductive StoreOp where
  | findByUsername (username : String)
  | incrementAttempts (uid : String)
  | resetAttempts (uid : String)
  | findOne (username : String) (email : Option String)
  | save (uid : String)
deriving Repr, DecidableEq

/-- Success payload of login: token plus the public user view (the
lastLogin field is read from the in-memory document, which updateOne does
not refresh, hence the pre-login value). -/
structure LoginSuccess where
  token : JwtToken
  userId : String
  username : String
  email : Option String
  lastLogin : Option Nat
deriving Repr, DecidableEq

/-- The login catch block: known application errors are rethrown
unchanged, anything else becomes AuthenticationError with the generic
message. -/
def loginCatch (e : JsError) : JsError :=
  match e with
  | .appValidation m es => .appValidation m es
  | .appAuth m => .appAuth m
  | .rateLimit _ => .appAuth "Authentication failed"
  | .mongooseValidation _ => .appAuth "Authentication failed"
  | .duplicateKey _ => .appAuth "Authentication failed"
  | .other _ => .appAuth "Authentication failed"

/-- AuthService.login.  storeErr injects a store fault at the lookup (a
thrown lower-level error); the returned triple is the caller-visible
outcome, the post-state of the collection, and the store operations
performed. -/
def login (cfg : SecurityConfig) (jcfg : JwtConfig) (now : Nat)
    (storeErr : Option JsError) (db : List UserRec)
    (username password : String) :
    Except JsError LoginSuccess × List UserRec × List StoreOp :=
  match validateLoginCredentials username password with
  | .error e => (.error (loginCatch e), db, [])
  | .ok (su, sp) =>
    match storeErr with
    | some e => (.error (loginCatch e), db, [.findByUsername su])
    | none =>
      match findByUsername db su with
      | none => (.error (.appAuth "Invalid credentials"), db, [.findByUsername su])
      | some user =>
        if user.isLocked now then
          (.error (.appAuth (lockMessage (user.lockUntil.getD 0) now)), db,
            [.findByUsername su])
        else if user.isActive = false then
          (.error (.appAuth "Account is inactive"), db, [.findByUsername su])
        else if comparePassword user sp = false then
          (.error (.appAuth "Invalid credentials"),
            updateUser db user.uid (incrementLoginAttempts cfg now),
            [.findByUsername su, .incrementAttempts user.uid])
        else
          (.ok { token := generateToken jcfg now user
                 userId := user.uid
                 username := user.username
                 email := user.email
                 lastLogin := user.lastLogin },
            updateUser db user.uid (resetLoginAttempts now),
            [.findByUsername su, .resetAttempts user.uid])

/-- Success payload of register. -/
structure RegisterSuccess where
  token : JwtToken
  userId : String
  username : String
  email : Option String
deriving Repr, DecidableEq

/-- The register catch block: application ValidationError is rethrown;
a mongoose validation error becomes ValidationError with the collected
messages; an E11000 duplicate key becomes ValidationError naming the
field; everything else becomes ValidationError with the generic
registration message. -/
def registerCatch (e : JsError) : JsError :=
  match e with
  | .appValidation m es => .appValidation m es
  | .mongooseValidation msgs => .appValidation "Validation failed" msgs
  | .duplicateKey f => .appValidation (f ++ " already exists") []
  | .appAuth _ => .appValidation "Registration failed" []
  | .rateLimit _ => .appValidation "Registration failed" []
  | .other _ => .appValidation "Registration failed" []

/-- JavaScript truthiness of the sanitized email as used in the findOne
or-clause: an empty string is falsy and contributes no email clause. -/
def seQuery (se : Option String) : Option String :=
  match se with
  | some em => if em = "" then none else some em
  | none => none

/-- Lowercasing applied by the email schema path on assignment. -/
def lowerStr (s : String) : String := s.map Char.toLower

/-- A freshly constructed user document before save: counters at their
schema defaults, email lowercased by its setter. -/
def mkNewUser (uid username password : String) (email : Option String) : UserRec :=
  { uid := uid
    username := username
    email := email.map lowerStr
    password := password
    failedLoginAttempts := 0
    lockUntil := none
    lastLogin := none
    isActive := true }

/-- The save step of register: saveErr injects a thrown store error,
otherwise the new document is appended and a token issued. -/
def registerSave (jcfg : JwtConfig) (now : Nat) (saveErr : Option JsError)
    (newUid : String) (db : List UserRec) (su sp : String) (se : Option String)
    (ops : List StoreOp) :
    Except JsError RegisterSuccess × List UserRec × List StoreOp :=
  match saveErr with
  | some e => (.error (registerCatch e), db, ops ++ [.save newUid])
  | none =>
    let nu := mkNewUser newUid su sp se
    (.ok { token := generateToken jcfg now nu
           userId := newUid
           username := nu.username
           email := nu.email },
      db ++ [nu], ops ++ [.save newUid])

/-- AuthService.register.  findErr and saveErr inject store faults at the
uniqueness lookup and at save; the result triple is as for login. -/
def register (jcfg : JwtConfig) (now : Nat) (findErr saveErr : Option JsError)
    (newUid : String) (db : List UserRec)
    (username password : String) (email : Option String) :
    Except JsError RegisterSuccess × List UserRec × List StoreOp :=
  match validateRegistrationData username password email with
  | .error e => (.error (registerCatch e), db, [])
  | .ok (su, sp, se) =>
    match findErr with
    | some e => (.error (registerCatch e), db, [.findOne su (seQuery se)])
    | none =>
      match findOneByUsernameOrEmail db su (seQuery se) with
      | some existing =>
        if existing.username == su then
          (.error (registerCatch (.appValidation "Username already exists" [])), db,
            [.findOne su (seQuery se)])
        else if existing.email == se then
          (.error (registerCatch (.appValidation "Email already exists" [])), db,
            [.findOne su (seQuery se)])
        else
          registerSave jcfg now saveErr newUid db su sp se [.findOne su (seQuery se)]
      | none =>
        registerSave jcfg now saveErr newUid db su sp se [.findOne su (seQuery se)]

/-! ## Rate limiter (src/middleware/rateLimiter.js) -/

/-- A stored window record. -/
structure RLRecord where
  count : Nat
  resetTime : Nat
deriving Repr, DecidableEq

/-- The in-memory Map of RateLimitStore, as an association list in
insertion order. -/
abbrev RLStore := List (String × RLRecord)

/-- RateLimitStore.get: a missing record reads as a fresh zero record; an
expired record (resetTime strictly before now) is deleted and also reads
as fresh. -/
def rlGet (store : RLStore) (now : Nat) (key : String) : RLRecord × RLStore :=
  match store.find? (fun p => p.1 == key) with
  | none => ({ count := 0, resetTime := now }, store)
  | some (_, r) =>
    if r.resetTime < now then
      ({ count := 0, resetTime := now }, store.filter (fun p => p.1 != key))
    else (r, store)

/-- Map.set: replace the record for the key or append a new binding. -/
def rlSet (store : RLStore) (key : String) (v : RLRecord) : RLStore :=
  if store.any (fun p => p.1 == key) then
    store.map (fun p => if p.1 == key then (key, v) else p)
  else store ++ [(key, v)]

/-- RateLimitStore.increment: read (with expiry reset), pick the window
end (a fresh record opens a window of windowMs from now), store and
return the incremented record. -/
def rlIncrement (store : RLStore) (now : Nat) (key : String) (windowMs : Nat) :
    RLRecord × RLStore :=
  let (r, s1) := rlGet store now key
  let resetTime := if r.count == 0 then now + windowMs else r.resetTime
  let nr : RLRecord := { count := r.count + 1, resetTime := resetTime }
  (nr, rlSet s1 key nr)

/-- The response headers set by the middleware. -/
structure RLHeaders where
  limit : Nat
  remaining : Nat
  resetSec : Nat
deriving Repr, DecidableEq

/-- Outcome of one middleware invocation: pass calls next() with the
headers set; fail calls next(error), with headers already set when the
increment ran before the throw. -/
inductive RLResult where
  | pass (headers : RLHeaders)
  | fail (e : JsError) (headers : Option RLHeaders)
deriving Repr, DecidableEq

/-- Whether the request was allowed through. -/
def RLResult.allowed : RLResult → Bool
  | .pass _ => true
  | .fail _ _ => false

/-- One invocation of the middleware produced by createRateLimiter.
keyRes is the outcome of keyGenerator(req); a throw there is caught by
the surrounding try and forwarded to next(error) before the store is
touched. -/
def rateLimitMiddleware (windowMs maxRequests : Nat) (message : String)
    (keyRes : Except JsError String) (now : Nat) (store : RLStore) :
    RLResult × RLStore :=
  match keyRes with
  | .error e => (.fail e none, store)
  | .ok key =>
    let (r, s1) := rlIncrement store now key windowMs
    let headers : RLHeaders :=
      { limit := maxRequests
        remaining := maxRequests - r.count
        resetSec := (r.resetTime + 999) / 1000 }
    if maxRequests < r.count then (.fail (.rateLimit message) (some headers), s1)
    else (.pass headers, s1)

/-- Run a sequence of requests for one key at the given instants,
threading the store. -/
def runSameKey (windowMs maxRequests : Nat) (message key : String) :
    RLStore → List Nat → List RLResult × RLStore
  | store, [] => ([], store)
  | store, t :: ts =>
    let (r, s1) := rateLimitMiddleware windowMs maxRequests message (.ok key) t store
    let (rs, s2) := runSameKey windowMs maxRequests message key s1 ts
    (r :: rs, s2)

/-- The outcome of the m-th request of a window whose end is rt: allowed
with the computed headers while m is within the limit, rejected with
RateLimitError beyond it. -/
def stepResult (maxRequests : Nat) (message : String) (rt m : Nat) : RLResult :=
  if maxRequests < m then
    .fail (.rateLimit message)
      (some { limit := maxRequests, remaining := maxRequests - m, resetSec := (rt + 999) / 1000 })
  else
    .pass { limit := maxRequests, remaining := maxRequests - m, resetSec := (rt + 999) / 1000 }

/-- Repeated login attempts with a fixed submitted password at a fixed
instant, keeping only the evolving collection state. -/
def iterateFailedLogins (cfg : SecurityConfig) (jcfg : JwtConfig) (t : Nat)
    (username password : String) (db : List UserRec) : Nat → List UserRec
  | 0 => db
  | k + 1 =>
    (login cfg jcfg t none (iterateFailedLogins cfg jcfg t username password db k)
      username password).2.1

/-! ## Theorems -/

/-- Claim C9: when the key-generator throws, the middleware forwards that
same error to next(error) — it neither silently allows (pass) nor
silently denies (RateLimitError) — and the rate-limit store is left
untouched. -/
theorem keygen_error_fails_open (windowMs maxRequests : Nat) (message : String)
    (e : JsError) (now : Nat) (store : RLStore) :
    rateLimitMiddleware windowMs maxRequests message (.error e) now store =
      (.fail e none, store) := rfl

/-- Claim C10: invoking incrementLoginAttempts on an account whose lock
has already expired sets failedLoginAttempts to exactly 1 and clears
lockUntil, starting a fresh failure count. -/
theorem expired_lock_restarts_counter (cfg : SecurityConfig) (now : Nat)
    (u : UserRec) (t : Nat) (hl : u.lockUntil = some t) (ht : t < now) :
    incrementLoginAttempts cfg now u =
      { u with failedLoginAttempts := 1, lockUntil := none } := by
  unfold incrementLoginAttempts
  rw [hl]
  simp [ht]

theorem expired_lock_restarts_counter_witness :
    incrementLoginAttempts ⟨5, 900000⟩ 1000
        ⟨"u1", "alice", none, "h", 4, some 999, none, true⟩ =
      ⟨"u1", "alice", none, "h", 1, none, none, true⟩ :=
  expired_lock_restarts_counter ⟨5, 900000⟩ 1000 _ 999 rfl (by decide)

/-- Claim C5: every token that fails verification — for any internal
failure kind (malformed, bad signature, expired, issuer mismatch) —
makes verifyToken fail with the one AuthenticationError message, never
revealing which check failed. -/
theorem token_verification_single_error_kind (jcfg : JwtConfig) (now : Nat)
    (t : JwtToken) (e : JwtError) (hfail : jwtVerify jcfg now t = .error e) :
    verifyToken jcfg now t = .error (.appAuth "Invalid or expired token") := by
  unfold verifyToken
  rw [hfail]

theorem token_verification_single_error_kind_witness :
    verifyToken ⟨"s", 1000, "iss"⟩ 1000
        (generateToken ⟨"s", 1000, "iss"⟩ 0
          ⟨"u1", "alice", none, "Secret1!", 0, none, none, true⟩) =
      .error (.appAuth "Invalid or expired token") :=
  token_verification_single_error_kind _ _ _ .expired (by decide)

/-- Claim C6: a login attempt on a locked account (lockUntil in the
future) fails with the lock error before the password is compared: the
collection is unchanged (no increment, no lock extension) and the only
store operation is the lookup. -/
theorem locked_account_attempt_no_side_effects
    (cfg : SecurityConfig) (jcfg : JwtConfig) (now : Nat) (db : List UserRec)
    (username password su sp : String) (u : UserRec) (t : Nat)
    (hval : validateLoginCredentials username password = .ok (su, sp))
    (hfind : findByUsername db su = some u)
    (hlock : u.lockUntil = some t) (hfut : now < t) :
    login cfg jcfg now none db username password =
      (.error (.appAuth (lockMessage t now)), db, [.findByUsername su]) := by
  unfold login
  rw [hval]
  have hl : u.isLocked now = true := by
    unfold UserRec.isLocked
    rw [hlock]
    simpa using hfut
  simp [hfind, hl, hlock]

theorem locked_account_attempt_no_side_effects_witness :
    login ⟨5, 900000⟩ ⟨"s", 1000, "iss"⟩ 0 none
        [⟨"u1", "alice", none, "h", 5, some 100000, none, true⟩] "alice" "pw" =
      (.error (.appAuth (lockMessage 100000 0)),
        [⟨"u1", "alice", none, "h", 5, some 100000, none, true⟩],
        [.findByUsername "alice"]) :=
  locked_account_attempt_no_side_effects ⟨5, 900000⟩ ⟨"s", 1000, "iss"⟩ 0
    [⟨"u1", "alice", none, "h", 5, some 100000, none, true⟩]
    "alice" "pw" "alice" "pw"
    ⟨"u1", "alice", none, "h", 5, some 100000, none, true⟩ 100000
    (by decide) (by decide) rfl (by decide)

/-- Claim C8: when the sanitized username is shorter than 3 or longer
than 50 characters, login fails with a ValidationError and performs no
credential-store operation: the collection is unchanged and the
operation trace is empty. -/
theorem bad_username_length_no_store_call
    (cfg : SecurityConfig) (jcfg : JwtConfig) (now : Nat)
    (storeErr : Option JsError) (db : List UserRec) (username password : String)
    (hlen : (sanitizeString username).length < 3 ∨
            50 < (sanitizeString username).length) :
    ∃ es, es ≠ [] ∧
      login cfg jcfg now storeErr db username password =
        (.error (.appValidation "Validation failed" es), db, []) := by
  have hne : validateUsername (sanitizeString username) ≠ [] := by
    unfold validateUsername
    split_ifs with h1 h2 h3 h4 <;> simp_all
  refine ⟨validateUsername (sanitizeString username) ++
    (if sanitizeString password = "" then [msgPwRequired] else []), ?_, ?_⟩
  · intro h
    exact hne (List.append_eq_nil.mp h).1
  · have herr : validateUsername (sanitizeString username) ++
        (if sanitizeString password = "" then [msgPwRequired] else []) ≠ [] := by
      intro h
      exact hne (List.append_eq_nil.mp h).1
    unfold login validateLoginCredentials
    simp only [if_neg herr]
    rfl

theorem bad_username_length_no_store_call_witness :
    ∃ es, es ≠ [] ∧
      login ⟨5, 900000⟩ ⟨"s", 1000, "iss"⟩ 0 none [] "ab" "pw" =
        (.error (.appValidation "Validation failed" es), [], []) :=
  bad_username_length_no_store_call ⟨5, 900000⟩ ⟨"s", 1000, "iss"⟩ 0 none [] "ab" "pw"
    (.inl (by decide))

/-- Claim C2 (amended): when the duplicate lookup of register finds an
existing user matching the submitted username — in particular when both
the username and the email collide — register fails with a
ValidationError naming only the username; the email collision is not
additionally reported. -/
theorem duplicate_register_names_username_only
    (jcfg : JwtConfig) (now : Nat) (saveErr : Option JsError) (newUid : String)
    (db : List UserRec) (username password : String) (email : Option String)
    (su sp : String) (se : Option String) (ex : UserRec)
    (hval : validateRegistrationData username password email = .ok (su, sp, se))
    (hfind : findOneByUsernameOrEmail db su (seQuery se) = some ex)
    (huname : ex.username = su) (_hemail : ex.email = se) :
    register jcfg now none saveErr newUid db username password email =
      (.error (.appValidation "Username already exists" []), db,
        [.findOne su (seQuery se)]) := by
  unfold register
  rw [hval]
  simp [hfind, huname, registerCatch]

theorem duplicate_register_names_username_only_witness :
    register ⟨"s", 1000, "iss"⟩ 0 none none "u2"
        [⟨"u1", "bob", some "b@x.com", "hash", 0, none, none, true⟩]
        "bob" "Str0ng!A" (some "b@x.com") =
      (.error (.appValidation "Username already exists" []),
        [⟨"u1", "bob", some "b@x.com", "hash", 0, none, none, true⟩],
        [.findOne "bob" (some "b@x.com")]) :=
  duplicate_register_names_username_only ⟨"s", 1000, "iss"⟩ 0 none "u2"
    [⟨"u1", "bob", some "b@x.com", "hash", 0, none, none, true⟩]
    "bob" "Str0ng!A" (some "b@x.com") "bob" "Str0ng!A" (some "b@x.com")
    ⟨"u1", "bob", some "b@x.com", "hash", 0, none, none, true⟩
    (by decide) (by decide) rfl rfl

/-- Claim C2 (counterexample to the claim as stated): registering a
username and an email that both collide with an existing user yields a
ValidationError whose message and error list name only the username —
the error nowhere mentions the email field, contradicting the claim that
both colliding fields are named. -/
theorem duplicate_register_both_collide_cex :
    (register ⟨"s", 1000, "iss"⟩ 0 none none "u2"
        [⟨"u1", "bob", some "b@x.com", "hash", 0, none, none, true⟩]
        "bob" "Str0ng!A" (some "b@x.com")).1 =
      .error (.appValidation "Username already exists" [])
    ∧ errorNamesField (.appValidation "Username already exists" []) "Email" = false
    ∧ errorNamesField (.appValidation "Username already exists" []) "mail" = false
    ∧ errorNamesField (.appValidation "Username already exists" []) "Username" = true := by
  decide

/-- Claim C7 (amended): an unexpected (non-Validation,
non-Authentication) error thrown by the store is never surfaced to the
caller: its message is discarded.  For login the caller sees
AuthenticationError with the fixed message Authentication failed; for
register the caller sees ValidationError with the fixed message
Registration failed (a 400-class error, not an AuthenticationError),
whether the store throws at the uniqueness lookup or at save. -/
theorem unexpected_store_error_masked :
    (∀ (cfg : SecurityConfig) (jcfg : JwtConfig) (now : Nat) (db : List UserRec)
       (username password su sp m : String),
       validateLoginCredentials username password = .ok (su, sp) →
       login cfg jcfg now (some (.other m)) db username password =
         (.error (.appAuth "Authentication failed"), db, [.findByUsername su]))
    ∧ (∀ (jcfg : JwtConfig) (now : Nat) (newUid : String) (db : List UserRec)
         (username password : String) (email : Option String)
         (su sp : String) (se : Option String) (m : String),
         validateRegistrationData username password email = .ok (su, sp, se) →
         register jcfg now (some (.other m)) none newUid db username password email =
           (.error (.appValidation "Registration failed" []), db,
             [.findOne su (seQuery se)]))
    ∧ (∀ (jcfg : JwtConfig) (now : Nat) (newUid : String) (db : List UserRec)
         (username password : String) (email : Option String)
         (su sp : String) (se : Option String) (m : String),
         validateRegistrationData username password email = .ok (su, sp, se) →
         findOneByUsernameOrEmail db su (seQuery se) = none →
         register jcfg now none (some (.other m)) newUid db username password email =
           (.error (.appValidation "Registration failed" []), db,
             [.findOne su (seQuery se), .save newUid])) := by
  refine ⟨?_, ?_, ?_⟩
  · intro cfg jcfg now db username password su sp m hval
    unfold login
    rw [hval]
    simp [loginCatch]
  · intro jcfg now newUid db username password email su sp se m hval
    unfold register
    rw [hval]
    simp [registerCatch]
  · intro jcfg now newUid db username password email su sp se m hval hfind
    unfold register
    rw [hval]
    simp [hfind, registerSave, registerCatch]

theorem unexpected_store_error_masked_witness :
    login ⟨5, 900000⟩ ⟨"s", 1000, "iss"⟩ 0
        (some (.other "MongoNetworkError: connect ECONNREFUSED")) [] "alice" "pw" =
      (.error (.appAuth "Authentication failed"), [], [.findByUsername "alice"]) :=
  unexpected_store_error_masked.1 ⟨5, 900000⟩ ⟨"s", 1000, "iss"⟩ 0 [] "alice" "pw"
    "alice" "pw" "MongoNetworkError: connect ECONNREFUSED" (by decide)

/-- Claim C7 (counterexample to the claim as stated): when the store
throws an unexpected error during register, the surfaced failure is a
ValidationError (statusCode 400) with the message Registration failed —
not the AuthenticationError/500-class failure the claim asserts. -/
theorem unexpected_store_error_register_cex :
    (register ⟨"s", 1000, "iss"⟩ 0
        (some (.other "MongoNetworkError: connect ECONNREFUSED")) none "u2" []
        "carol" "Str0ng!A" none).1 =
      .error (.appValidation "Registration failed" [])
    ∧ JsError.isAuthErr (.appValidation "Registration failed" []) = false
    ∧ JsError.statusCode (.appValidation "Registration failed" []) = some 400 := by
  decide

/-- Claim C4: for every password whose length the validator accepts
(8 to 128 characters), the error list contains exactly one message per
missing character class among uppercase, lowercase, digit and special,
and no length message; in particular an all-lowercase password of
accepted length yields exactly the three class messages for uppercase,
number and special character. -/

theorem password_reports_all_missing_classes :
    (∀ p : String, 8 ≤ p.length → p.length ≤ 128 →
       ((validatePassword p).length =
          ((if hasUpperCase p then 0 else 1) + (if hasLowerCase p then 0 else 1) +
           (if hasNumbers p then 0 else 1) + (if hasSpecialChar p then 0 else 1))
        ∧ (validatePassword p).count msgPwUpper = (if hasUpperCase p then 0 else 1)
        ∧ (validatePassword p).count msgPwLower = (if hasLowerCase p then 0 else 1)
        ∧ (validatePassword p).count msgPwNumber = (if hasNumbers p then 0 else 1)
        ∧ (validatePassword p).count msgPwSpecial = (if hasSpecialChar p then 0 else 1)
        ∧ msgPwMin ∉ validatePassword p ∧ msgPwMax ∉ validatePassword p))
    ∧ (∀ p : String, 8 ≤ p.length → p.length ≤ 128 →
         (p.toList.all fun c => Char.ofNat 97 ≤ c && c ≤ Char.ofNat 122) →
         validatePassword p = [msgPwUpper, msgPwNumber, msgPwSpecial]) := by
  constructor
  · intro p h8 h128
    have hne : p ≠ "" := by
      intro h
      rw [h] at h8
      exact absurd h8 (by decide)
    have hn8 : ¬ p.length < 8 := by omega
    have hn128 : ¬ 128 < p.length := by omega
    unfold validatePassword
    rw [if_neg hne, if_neg hn8, if_neg hn128]
    cases hU : hasUpperCase p <;> cases hL : hasLowerCase p <;>
      cases hN : hasNumbers p <;> cases hS : hasSpecialChar p <;>
      simp <;> decide
  · intro p h8 h128 hlow
    have hne : p ≠ "" := by
      intro h
      rw [h] at h8
      exact absurd h8 (by decide)
    have hn8 : ¬ p.length < 8 := by omega
    have hn128 : ¬ 128 < p.length := by omega
    have hlist : p.toList ≠ [] := by
      intro h
      have hlen : p.toList.length = p.length := rfl
      rw [h] at hlen
      simp at hlen
      omega
    have hmem : ∀ c ∈ p.toList, Char.ofNat 97 ≤ c ∧ c ≤ Char.ofNat 122 := by
      intro c hc
      have := List.all_eq_true.mp hlow c hc
      simpa using this
    have hU : hasUpperCase p = false := by
      unfold hasUpperCase
      rw [List.any_eq_false]
      intro c hc
      obtain ⟨h1, _⟩ := hmem c hc
      simp only [Bool.and_eq_true, decide_eq_true_eq]
      rintro ⟨_, h4⟩
      exact absurd (le_trans h1 h4) (by decide)
    have hN : hasNumbers p = false := by
      unfold hasNumbers
      rw [List.any_eq_false]
      intro c hc
      obtain ⟨h1, _⟩ := hmem c hc
      simp only [Bool.and_eq_true, decide_eq_true_eq]
      rintro ⟨_, h4⟩
      exact absurd (le_trans h1 h4) (by decide)
    have hS : hasSpecialChar p = false := by
      unfold hasSpecialChar
      rw [List.any_eq_false]
      intro c hc
      obtain ⟨h1, h2⟩ := hmem c hc
      intro hcon
      have hm : c ∈ specialChars := List.mem_of_elem_eq_true hcon
      have key : ∀ x ∈ specialChars, ¬(Char.ofNat 97 ≤ x ∧ x ≤ Char.ofNat 122) := by decide
      exact key c hm ⟨h1, h2⟩
    have hL : hasLowerCase p = true := by
      unfold hasLowerCase
      rw [List.any_eq_true]
      obtain ⟨c, hc⟩ := List.exists_mem_of_ne_nil p.toList hlist
      exact ⟨c, hc, by simpa using hmem c hc⟩
    unfold validatePassword
    rw [if_neg hne, if_neg hn8, if_neg hn128, hU, hL, hN, hS]
    simp

theorem password_reports_all_missing_classes_witness :
    validatePassword "aaaaaaaa" = [msgPwUpper, msgPwNumber, msgPwSpecial] :=
  password_reports_all_missing_classes.2 "aaaaaaaa" (by decide) (by decide) (by decide)

/-- The expected result sequence of n further requests in a window ending
at rt, entered with the counter at k. -/
def expectedResults (R : Nat) (msg : String) (rt : Nat) : Nat → Nat → List RLResult
  | _, 0 => []
  | k, n + 1 => stepResult R msg rt (k + 1) :: expectedResults R msg rt (k + 1) n

lemma rl_first_request (W R : Nat) (msg key : String) (t0 : Nat) :
    rateLimitMiddleware W R msg (.ok key) t0 [] =
      (stepResult R msg (t0 + W) 1, [(key, ⟨1, t0 + W⟩)]) := by
  simp only [rateLimitMiddleware, rlIncrement, rlGet, rlSet, stepResult]
  simp
  split_ifs <;> rfl

lemma rl_step_within (W R : Nat) (msg key : String) (rt t k : Nat)
    (ht : t ≤ rt) (hk : 1 ≤ k) :
    rateLimitMiddleware W R msg (.ok key) t [(key, ⟨k, rt⟩)] =
      (stepResult R msg rt (k + 1), [(key, ⟨k + 1, rt⟩)]) := by
  have h1 : ¬ rt < t := by omega
  have h2 : k ≠ 0 := by omega
  simp only [rateLimitMiddleware, rlIncrement, rlGet, rlSet, stepResult]
  simp [h1, h2]
  split_ifs <;> rfl

lemma rl_run_within (W R : Nat) (msg key : String) (rt : Nat) :
    ∀ (ts : List Nat), (∀ t ∈ ts, t ≤ rt) → ∀ k, 1 ≤ k →
      runSameKey W R msg key [(key, ⟨k, rt⟩)] ts =
        (expectedResults R msg rt k ts.length, [(key, ⟨k + ts.length, rt⟩)]) := by
  intro ts
  induction ts with
  | nil => intro _ k _; simp [runSameKey, expectedResults]
  | cons t ts ih =>
    intro hts k hk
    have ht : t ≤ rt := hts t (by simp)
    have hstep := rl_step_within W R msg key rt t k ht hk
    have hrec := ih (fun x hx => hts x (by simp [hx])) (k + 1) (by omega)
    simp only [runSameKey, hstep, hrec, expectedResults, List.length_cons]
    have e1 : k + 1 + ts.length = k + (ts.length + 1) := by omega
    rw [e1]

lemma rl_run_from_empty (W R : Nat) (msg key : String) (t0 : Nat)
    (ts : List Nat) (hts : ∀ t ∈ ts, t ≤ t0 + W) :
    runSameKey W R msg key [] (t0 :: ts) =
      (expectedResults R msg (t0 + W) 0 (ts.length + 1),
        [(key, ⟨ts.length + 1, t0 + W⟩)]) := by
  have hstep := rl_first_request W R msg key t0
  have hrec := rl_run_within W R msg key (t0 + W) ts hts 1 le_rfl
  simp only [runSameKey, hstep, hrec, expectedResults]
  have e1 : 1 + ts.length = ts.length + 1 := by omega
  rw [e1]

lemma expectedResults_take_allowed (R : Nat) (msg : String) (rt : Nat) :
    ∀ (n k : Nat),
      ((expectedResults R msg rt k n).take (R - k)).all RLResult.allowed = true := by
  intro n
  induction n with
  | zero => intro k; simp [expectedResults]
  | succ n ih =>
    intro k
    by_cases hk : R - k = 0
    · simp [hk]
    · obtain ⟨m, hm⟩ : ∃ m, R - k = m + 1 := ⟨R - k - 1, by omega⟩
      have hhead : (stepResult R msg rt (k + 1)).allowed = true := by
        unfold stepResult
        rw [if_neg (by omega)]
        rfl
      have hm2 : R - (k + 1) = m := by omega
      simp only [expectedResults, hm, List.take_succ_cons, List.all_cons, hhead,
        Bool.true_and]
      have h := ih (k + 1)
      rwa [hm2] at h

lemma expectedResults_getLast (R : Nat) (msg : String) (rt : Nat) :
    ∀ (n k : Nat), (expectedResults R msg rt k (n + 1)).getLast? =
      some (stepResult R msg rt (k + n + 1)) := by
  intro n
  induction n with
  | zero => intro k; simp [expectedResults]
  | succ n ih =>
    intro k
    have h0 : expectedResults R msg rt k (n + 2) =
        stepResult R msg rt (k + 1) :: expectedResults R msg rt (k + 1) (n + 1) := rfl
    rw [h0]
    have hcons : expectedResults R msg rt (k + 1) (n + 1) =
        stepResult R msg rt (k + 2) :: expectedResults R msg rt (k + 2) n := rfl
    rw [hcons, List.getLast?_cons_cons, ← hcons, ih (k + 1)]
    congr 1
    congr 1
    omega

/-- Claim C3 (amended): for a key with limit R and window W, the first R
requests made within the window starting at the first request are
allowed and the (R+1)-th such request is rejected with RateLimitError
(count keeps incrementing to R+1); a request arriving strictly after the
stored windowResetAt is allowed again and establishes a fresh window of
length W from its own instant with the count restarted at 1.  (The
source resets only when now is strictly greater than windowResetAt, not
at it.) -/
theorem rate_limiter_window
    (W R t0 : Nat) (msg key : String) (rest : List Nat)
    (hR : 1 ≤ R) (hlen : rest.length = R) (hrest : ∀ t ∈ rest, t ≤ t0 + W) :
    ((runSameKey W R msg key [] (t0 :: rest)).1.take R).all RLResult.allowed = true
    ∧ (runSameKey W R msg key [] (t0 :: rest)).1.getLast? =
        some (.fail (.rateLimit msg) (some ⟨R, 0, (t0 + W + 999) / 1000⟩))
    ∧ (runSameKey W R msg key [] (t0 :: rest)).2 = [(key, ⟨R + 1, t0 + W⟩)]
    ∧ ∀ (c rt tr : Nat), rt < tr →
        rateLimitMiddleware W R msg (.ok key) tr [(key, ⟨c, rt⟩)] =
          (.pass ⟨R, R - 1, (tr + W + 999) / 1000⟩, [(key, ⟨1, tr + W⟩)]) := by
  have hrun := rl_run_from_empty W R msg key t0 rest hrest
  rw [hlen] at hrun
  refine ⟨?_, ?_, ?_, ?_⟩
  · rw [hrun]
    have h := expectedResults_take_allowed R msg (t0 + W) (R + 1) 0
    simpa using h
  · rw [hrun]
    have h := expectedResults_getLast R msg (t0 + W) R 0
    simp only [Nat.zero_add] at h
    rw [h]
    unfold stepResult
    rw [if_pos (by omega)]
    have hz : R - (R + 1) = 0 := by omega
    rw [hz]
  · rw [hrun]
  · intro c rt tr hlt
    have hR1 : ¬ R < 1 := by omega
    simp only [rateLimitMiddleware, rlIncrement, rlGet, rlSet]
    simp [hlt, hR1]

theorem rate_limiter_window_witness :
    (runSameKey 10000 1 "m" "k" [] [0, 5000]).1.getLast? =
      some (.fail (.rateLimit "m") (some ⟨1, 0, 10⟩)) :=
  (rate_limiter_window 10000 1 0 "m" "k" [5000] (by decide) (by decide) (by decide)).2.1

/-- Claim C3 (counterexample to the claim as stated): with limit 1 and
window 10000 the first request at instant 0 stores windowResetAt 10000,
and a request arriving exactly at windowResetAt (instant 10000) is
rejected, although the claim says a request at or after windowResetAt is
allowed again: the source only resets when now is strictly greater than
windowResetAt. -/
theorem rate_limiter_boundary_cex :
    (runSameKey 10000 1 "Too many requests, please try again later" "k" [] [0]).2 =
      [("k", ⟨1, 10000⟩)]
    ∧ (runSameKey 10000 1 "Too many requests, please try again later" "k" [] [0, 10000]).1 =
      [.pass ⟨1, 0, 10⟩,
       .fail (.rateLimit "Too many requests, please try again later") (some ⟨1, 0, 10⟩)] := by
  decide




lemma login_wrong_password_step (cfg : SecurityConfig) (jcfg : JwtConfig)
    (t : Nat) (u : UserRec) (q : String)
    (hU : sanitizeString u.username = u.username)
    (hUok : validateUsername u.username = [])
    (hq : sanitizeString q = q) (hqne : q ≠ "") (hwrong : q ≠ u.password)
    (hlock : u.lockUntil = none) (hact : u.isActive = true) :
    login cfg jcfg t none [u] u.username q =
      (.error (.appAuth "Invalid credentials"), [incrementLoginAttempts cfg t u],
        [.findByUsername u.username, .incrementAttempts u.uid]) := by
  have hval : validateLoginCredentials u.username q = .ok (u.username, q) := by
    simp [validateLoginCredentials, hU, hq, hUok, hqne]
  unfold login
  rw [hval]
  have hfind : findByUsername [u] u.username = some u := by
    simp [findByUsername]
  have hl : u.isLocked t = false := by
    unfold UserRec.isLocked
    rw [hlock]
  have hcmp : comparePassword u q = false := by
    simp [comparePassword, hwrong]
  simp [hfind, hl, hact, hcmp, updateUser]

lemma iterate_failed_logins_state (cfg : SecurityConfig) (jcfg : JwtConfig)
    (t : Nat) (u : UserRec) (q : String)
    (hU : sanitizeString u.username = u.username)
    (hUok : validateUsername u.username = [])
    (hq : sanitizeString q = q) (hqne : q ≠ "") (hwrong : q ≠ u.password)
    (hcount : u.failedLoginAttempts = 0) (hlock : u.lockUntil = none)
    (hact : u.isActive = true) :
    ∀ k, k ≤ cfg.maxLoginAttempts →
      iterateFailedLogins cfg jcfg t u.username q [u] k =
        [{ u with failedLoginAttempts := k,
                  lockUntil := if cfg.maxLoginAttempts ≤ k ∧ k ≠ 0
                               then some (t + cfg.lockoutDuration) else none }] := by
  rcases u with ⟨uid, un, em, pw, fa, lu, ll, ia⟩
  obtain rfl : fa = 0 := hcount
  obtain rfl : lu = none := hlock
  obtain rfl : ia = true := hact
  intro k
  induction k with
  | zero => intro _; simp [iterateFailedLogins]
  | succ k ih =>
    intro hk1
    have hk : k ≤ cfg.maxLoginAttempts := by omega
    have hklt : ¬ (cfg.maxLoginAttempts ≤ k ∧ k ≠ 0) := by
      rintro ⟨h1, _⟩
      omega
    simp only [iterateFailedLogins]
    rw [ih hk, if_neg hklt]
    have hstep : login cfg jcfg t none [⟨uid, un, em, pw, k, none, ll, true⟩] un q =
        (.error (.appAuth "Invalid credentials"),
          [incrementLoginAttempts cfg t ⟨uid, un, em, pw, k, none, ll, true⟩],
          [.findByUsername un, .incrementAttempts uid]) :=
      login_wrong_password_step cfg jcfg t ⟨uid, un, em, pw, k, none, ll, true⟩ q
        hU hUok hq hqne hwrong rfl rfl
    rw [hstep]
    by_cases hc : cfg.maxLoginAttempts ≤ k + 1 <;>
      simp [incrementLoginAttempts, incrementBase, hc]



/-- Claim C1: with failure threshold N (at least 1) and an initially
clean active account, exactly N consecutive wrong-password login
attempts leave the stored record with failedLoginAttempts = N and
lockUntil set to the attempt instant plus the lockout duration; the
(N+1)-th attempt, made before lockUntil with the correct password, fails
with the lock-specific AuthenticationError; and a correct-password
attempt at or after lockUntil succeeds and resets failedLoginAttempts to
0 (clearing the lock and stamping lastLogin). -/
theorem lockout_state_machine
    (cfg : SecurityConfig) (jcfg : JwtConfig) (u : UserRec) (q : String)
    (t0 t1 t2 : Nat)
    (hN : 1 ≤ cfg.maxLoginAttempts)
    (hU : sanitizeString u.username = u.username)
    (hUok : validateUsername u.username = [])
    (hp : sanitizeString u.password = u.password) (hpne : u.password ≠ "")
    (hq : sanitizeString q = q) (hqne : q ≠ "") (hwrong : q ≠ u.password)
    (hcount : u.failedLoginAttempts = 0) (hlock : u.lockUntil = none)
    (hact : u.isActive = true)
    (ht1 : t1 < t0 + cfg.lockoutDuration) (ht2 : t0 + cfg.lockoutDuration ≤ t2) :
    iterateFailedLogins cfg jcfg t0 u.username q [u] cfg.maxLoginAttempts =
      [{ u with failedLoginAttempts := cfg.maxLoginAttempts,
                lockUntil := some (t0 + cfg.lockoutDuration) }]
    ∧ (login cfg jcfg t1 none
         (iterateFailedLogins cfg jcfg t0 u.username q [u] cfg.maxLoginAttempts)
         u.username u.password).1 =
        .error (.appAuth (lockMessage (t0 + cfg.lockoutDuration) t1))
    ∧ ∃ s, login cfg jcfg t2 none
         (iterateFailedLogins cfg jcfg t0 u.username q [u] cfg.maxLoginAttempts)
         u.username u.password =
        (.ok s,
          [{ u with failedLoginAttempts := 0, lockUntil := none,
                    lastLogin := some t2 }],
          [.findByUsername u.username, .resetAttempts u.uid]) := by
  rcases u with ⟨uid, un, em, pw, fa, lu, ll, ia⟩
  obtain rfl : fa = 0 := hcount
  obtain rfl : lu = none := hlock
  obtain rfl : ia = true := hact
  have hA : iterateFailedLogins cfg jcfg t0 un q
      [⟨uid, un, em, pw, 0, none, ll, true⟩] cfg.maxLoginAttempts =
      [⟨uid, un, em, pw, cfg.maxLoginAttempts,
        some (t0 + cfg.lockoutDuration), ll, true⟩] := by
    rw [iterate_failed_logins_state cfg jcfg t0 ⟨uid, un, em, pw, 0, none, ll, true⟩ q
      hU hUok hq hqne hwrong rfl rfl rfl cfg.maxLoginAttempts le_rfl]
    rw [if_pos ⟨le_rfl, by omega⟩]
  have hval : validateLoginCredentials un pw = .ok (un, pw) := by
    simp [validateLoginCredentials, hU, hp, hUok, hpne]
  have hfind : findByUsername
      [⟨uid, un, em, pw, cfg.maxLoginAttempts,
        some (t0 + cfg.lockoutDuration), ll, true⟩] un =
      some ⟨uid, un, em, pw, cfg.maxLoginAttempts,
        some (t0 + cfg.lockoutDuration), ll, true⟩ := by
    simp [findByUsername]
  refine ⟨hA, ?_, ?_⟩
  · rw [hA]
    unfold login
    rw [hval]
    have hl : (⟨uid, un, em, pw, cfg.maxLoginAttempts,
        some (t0 + cfg.lockoutDuration), ll, true⟩ : UserRec).isLocked t1 = true := by
      simp [UserRec.isLocked, ht1]
    simp [hfind, hl]
  · rw [hA]
    unfold login
    rw [hval]
    have hl : (⟨uid, un, em, pw, cfg.maxLoginAttempts,
        some (t0 + cfg.lockoutDuration), ll, true⟩ : UserRec).isLocked t2 = false := by
      simp [UserRec.isLocked]
      omega
    have hcmp : comparePassword ⟨uid, un, em, pw, cfg.maxLoginAttempts,
        some (t0 + cfg.lockoutDuration), ll, true⟩ pw = true := by
      simp [comparePassword]
    refine ⟨⟨generateToken jcfg t2 ⟨uid, un, em, pw, cfg.maxLoginAttempts,
      some (t0 + cfg.lockoutDuration), ll, true⟩, uid, un, em, ll⟩, ?_⟩
    simp [hfind, hl, hcmp, updateUser, resetLoginAttempts]

theorem lockout_state_machine_witness :
    (login ⟨2, 60000⟩ ⟨"s", 1000, "iss"⟩ 1 none
        (iterateFailedLogins ⟨2, 60000⟩ ⟨"s", 1000, "iss"⟩ 0 "alice" "wrongpass"
          [⟨"u1", "alice", none, "Secret1!", 0, none, none, true⟩] 2)
        "alice" "Secret1!").1 =
      .error (.appAuth (lockMessage 60000 1)) :=
  (lockout_state_machine ⟨2, 60000⟩ ⟨"s", 1000, "iss"⟩
    ⟨"u1", "alice", none, "Secret1!", 0, none, none, true⟩ "wrongpass" 0 1 60000
    (by decide) (by decide) (by decide) (by decide) (by decide) (by decide)
    (by decide) (by decide) rfl rfl rfl (by decide) (by decide)).2.1

end Auth
